import Mathlib

/-!
Shallow embedding of the event-model layer in eiffelactory/eiffel.py.

Python dict-shaped event documents are modelled by the inductive JValue:
an ordered association list of string keys for dicts, lists, strings,
numbers, booleans and None/null. Python subscripting and membership
tests, which can raise KeyError or TypeError, are modelled by Option
valued functions, with none standing for a raised exception.
-/

namespace Eiffelactory

/-- A Python/JSON value as handled by eiffel.py: None, bool, str, a number,
a list, or a dict with string keys in insertion order. -/
inductive JValue where
  | null : JValue
  | bool (b : Bool) : JValue
  | str (s : String) : JValue
  | num (n : Int) : JValue
  | arr (elems : List JValue) : JValue
  | obj (fields : List (String × JValue)) : JValue

mutual

/-- Boolean structural equality on JValue (Python value equality as it
applies to the JSON-shaped values eiffel.py handles). -/
def jbeq : JValue → JValue → Bool
  | JValue.null, JValue.null => true
  | JValue.bool a, JValue.bool b => a == b
  | JValue.str a, JValue.str b => a == b
  | JValue.num a, JValue.num b => a == b
  | JValue.arr as, JValue.arr bs => jbeqList as bs
  | JValue.obj as, JValue.obj bs => jbeqFields as bs
  | _, _ => false

/-- Elementwise jbeq on lists. -/
def jbeqList : List JValue → List JValue → Bool
  | [], [] => true
  | a :: as, b :: bs => jbeq a b && jbeqList as bs
  | _, _ => false

/-- Elementwise jbeq on field lists, comparing keys and values. -/
def jbeqFields : List (String × JValue) → List (String × JValue) → Bool
  | [], [] => true
  | a :: as, b :: bs => a.1 == b.1 && jbeq a.2 b.2 && jbeqFields as bs
  | _, _ => false

end

mutual

/-- jbeq decides propositional equality. -/
def jbeq_iff : ∀ a b : JValue, jbeq a b = true ↔ a = b
  | JValue.null, JValue.null => by simp [jbeq]
  | JValue.bool a, JValue.bool b => by simp [jbeq]
  | JValue.str a, JValue.str b => by simp [jbeq]
  | JValue.num a, JValue.num b => by simp [jbeq]
  | JValue.arr as, JValue.arr bs => by simp [jbeq, jbeqList_iff as bs]
  | JValue.obj as, JValue.obj bs => by simp [jbeq, jbeqFields_iff as bs]
  | JValue.null, JValue.bool _ => by simp [jbeq]
  | JValue.null, JValue.str _ => by simp [jbeq]
  | JValue.null, JValue.num _ => by simp [jbeq]
  | JValue.null, JValue.arr _ => by simp [jbeq]
  | JValue.null, JValue.obj _ => by simp [jbeq]
  | JValue.bool _, JValue.null => by simp [jbeq]
  | JValue.bool _, JValue.str _ => by simp [jbeq]
  | JValue.bool _, JValue.num _ => by simp [jbeq]
  | JValue.bool _, JValue.arr _ => by simp [jbeq]
  | JValue.bool _, JValue.obj _ => by simp [jbeq]
  | JValue.str _, JValue.null => by simp [jbeq]
  | JValue.str _, JValue.bool _ => by simp [jbeq]
  | JValue.str _, JValue.num _ => by simp [jbeq]
  | JValue.str _, JValue.arr _ => by simp [jbeq]
  | JValue.str _, JValue.obj _ => by simp [jbeq]
  | JValue.num _, JValue.null => by simp [jbeq]
  | JValue.num _, JValue.bool _ => by simp [jbeq]
  | JValue.num _, JValue.str _ => by simp [jbeq]
  | JValue.num _, JValue.arr _ => by simp [jbeq]
  | JValue.num _, JValue.obj _ => by simp [jbeq]
  | JValue.arr _, JValue.null => by simp [jbeq]
  | JValue.arr _, JValue.bool _ => by simp [jbeq]
  | JValue.arr _, JValue.str _ => by simp [jbeq]
  | JValue.arr _, JValue.num _ => by simp [jbeq]
  | JValue.arr _, JValue.obj _ => by simp [jbeq]
  | JValue.obj _, JValue.null => by simp [jbeq]
  | JValue.obj _, JValue.bool _ => by simp [jbeq]
  | JValue.obj _, JValue.str _ => by simp [jbeq]
  | JValue.obj _, JValue.num _ => by simp [jbeq]
  | JValue.obj _, JValue.arr _ => by simp [jbeq]

/-- jbeqList decides propositional equality of lists. -/
def jbeqList_iff : ∀ as bs : List JValue, jbeqList as bs = true ↔ as = bs
  | [], [] => by simp [jbeqList]
  | [], _ :: _ => by simp [jbeqList]
  | _ :: _, [] => by simp [jbeqList]
  | a :: as, b :: bs => by simp [jbeqList, jbeq_iff a b, jbeqList_iff as bs]

/-- jbeqFields decides propositional equality of field lists. -/
def jbeqFields_iff :
    ∀ as bs : List (String × JValue), jbeqFields as bs = true ↔ as = bs
  | [], [] => by simp [jbeqFields]
  | [], _ :: _ => by simp [jbeqFields]
  | _ :: _, [] => by simp [jbeqFields]
  | a :: as, b :: bs => by
      simp [jbeqFields, jbeq_iff a.2 b.2, jbeqFields_iff as bs, Prod.ext_iff]

end

instance : DecidableEq JValue := fun a b => decidable_of_iff _ (jbeq_iff a b)

/-- First-match key lookup in an ordered field list (dict access). -/
def lookupField : List (String × JValue) → String → Option JValue
  | [], _ => none
  | kv :: rest, key => if kv.1 = key then some kv.2 else lookupField rest key

/-- Models the Python subscript expression value[key] for a string key:
some result on a dict hit, none when Python raises (KeyError on a missing
key, TypeError on a non-dict value). -/
def pyGetItem : JValue → String → Option JValue
  | JValue.obj fields, key => lookupField fields key
  | _, _ => none

/-- Whether the needle character list occurs at the start of the hay list. -/
def leadsChars : List Char → List Char → Bool
  | [], _ => true
  | _ :: _, [] => false
  | a :: as, b :: bs => a == b && leadsChars as bs

/-- Whether the needle character list occurs contiguously in the hay list. -/
def occursChars : List Char → List Char → Bool
  | needle, [] => leadsChars needle []
  | needle, b :: bs => leadsChars needle (b :: bs) || occursChars needle bs

/-- Models the Python expression key in value: key membership for a dict,
element equality for a list, substring test for a string, and none for the
TypeError Python raises on the remaining types. -/
def pyContains (key : String) : JValue → Option Bool
  | JValue.obj fields => some (fields.any (fun kv => kv.1 == key))
  | JValue.arr elems => some (elems.any (fun v => decide (v = JValue.str key)))
  | JValue.str s => some (occursChars key.toList s.toList)
  | _ => none

/-- The keys of a dict document, in order; empty for non-dict values. -/
def keysOf : JValue → List String
  | JValue.obj fields => fields.map Prod.fst
  | _ => []

-- Module-level constants of eiffel.py.

def EIFFEL_ARTIFACT_PUBLISHED_EVENT : String := "EiffelArtifactPublishedEvent"

def EIFFEL_ARTIFACT_CREATED_EVENT : String := "EiffelArtifactCreatedEvent"

def VERSION_3_0_0 : String := "3.0.0"

def EIFFELACTORY : String := "EIFFELACTORY"

/-- The external identity and time provider: the values that
uuid.uuid4() (as a string) and utils.current_time_millis() return for
one construction. -/
structure IdTimeProvider where
  uuid4 : String
  current_time_millis : Int

/-- Event.__init__: dict with keys data, links, meta in that order. -/
def Event (data links meta : JValue) : JValue :=
  JValue.obj [("data", data), ("links", links), ("meta", meta)]

/-- Meta.__init__: defaults event_id to a fresh uuid string and time to the
current time in milliseconds when the caller passes None, then builds the
dict with keys id, type, version, time, tags, source in that order. -/
def Meta (provider : IdTimeProvider) (event_type version : String)
    (event_id time tags source : JValue) : JValue :=
  let event_id := match event_id with
    | JValue.null => JValue.str provider.uuid4
    | v => v
  let time := match time with
    | JValue.null => JValue.num provider.current_time_millis
    | v => v
  JValue.obj [("id", event_id), ("type", JValue.str event_type),
    ("version", JValue.str version), ("time", time),
    ("tags", tags), ("source", source)]

/-- Source.__init__: dict with keys domainId, host, name, serializer, uri
in that order. The Python default for name is EIFFELACTORY; callers of this
embedding pass the defaults explicitly. -/
def Source (domain_id host name serializer uri : JValue) : JValue :=
  JValue.obj [("domainId", domain_id), ("host", host), ("name", name),
    ("serializer", serializer), ("uri", uri)]

/-- Link.ARTIFACT class attribute. -/
def Link.ARTIFACT : String := "ARTIFACT"

/-- Link.__init__: dict with keys type, target in that order. -/
def Link (link_type target : JValue) : JValue :=
  JValue.obj [("type", link_type), ("target", target)]

/-- ArtifactPublishedData.__init__: dict with the single key locations. -/
def ArtifactPublishedData (locations : JValue) : JValue :=
  JValue.obj [("locations", locations)]

/-- Location.ARTIFACTORY class attribute, the Python default for
location_type. -/
def Location.ARTIFACTORY : String := "ARTIFACTORY"

/-- Location.__init__: dict with keys type, uri in that order. -/
def Location (uri location_type : JValue) : JValue :=
  JValue.obj [("type", location_type), ("uri", uri)]

/-- create_artifact_published_event: assembles ArtifactPublishedData, a
single ARTIFACT link targeting artc_event_id, and a Meta with the
published-event type, version 3.0.0, defaulted id and time, no tags, and a
Source built from all Python defaults (name EIFFELACTORY, the rest None). -/
def create_artifact_published_event (provider : IdTimeProvider)
    (artc_event_id : String) (locations : List JValue) : JValue :=
  let data := ArtifactPublishedData (JValue.arr locations)
  let links := JValue.arr [Link (JValue.str Link.ARTIFACT) (JValue.str artc_event_id)]
  let meta := Meta provider EIFFEL_ARTIFACT_PUBLISHED_EVENT VERSION_3_0_0
    JValue.null JValue.null JValue.null
    (Source JValue.null JValue.null (JValue.str EIFFELACTORY)
      JValue.null JValue.null)
  Event data links meta

/-- is_eiffel_event_type: evaluates event[meta][type] == event_type, where
the two subscripts can raise (modelled by none). -/
def is_eiffel_event_type (event : JValue) (event_type : String) : Option Bool :=
  (pyGetItem event "meta").bind (fun meta =>
    (pyGetItem meta "type").map (fun t => decide (t = JValue.str event_type)))

/-- is_artifact_created_event: is_eiffel_event_type at the artifact-created
type name. -/
def is_artifact_created_event (event : JValue) : Option Bool :=
  is_eiffel_event_type event EIFFEL_ARTIFACT_CREATED_EVENT

/-- is_sent_from_sources: returns False when meta has no source key or the
source is None, then when the source has no name key or the name is None,
and otherwise tests membership of the name in the configured source names.
Each subscript and membership test can raise (modelled by none). -/
def is_sent_from_sources (event : JValue) (sources : List String) : Option Bool :=
  (pyGetItem event "meta").bind (fun meta =>
    (pyContains "source" meta).bind (fun hasSource =>
      if hasSource then
        (pyGetItem meta "source").bind (fun source =>
          match source with
          | JValue.null => some false
          | _ =>
            (pyContains "name" source).bind (fun hasName =>
              if hasName then
                (pyGetItem source "name").bind (fun name =>
                  match name with
                  | JValue.null => some false
                  | _ => some (sources.any (fun s => decide (name = JValue.str s))))
              else some false))
      else some false))

/-- A concrete provider used by witnesses. -/
def providerA : IdTimeProvider :=
  { uuid4 := "11111111-1111-1111-1111-111111111111", current_time_millis := 1500000000000 }

/-- A second concrete provider, with a different uuid, used by witnesses. -/
def providerB : IdTimeProvider :=
  { uuid4 := "22222222-2222-2222-2222-222222222222", current_time_millis := 1500000000001 }

/-- A dict field list has a key exactly when lookupField succeeds on it. -/
theorem any_key_eq_isSome (fields : List (String × JValue)) (key : String) :
    (fields.any (fun kv => kv.1 == key)) = (lookupField fields key).isSome := by
  induction fields with
  | nil => rfl
  | cons kv rest ih =>
      by_cases h : kv.1 = key
      · simp [lookupField, h]
      · simp [lookupField, h, ih]

/-- Case analysis of is_sent_from_sources on an event whose meta field is
present and is a dict: absent or null source gives false; for a dict
source, absent or null name gives false, and otherwise the result is the
membership test of the name against the configured source names. -/
theorem is_sent_from_sources_cases
    (fields m : List (String × JValue)) (S : List String)
    (hmeta : lookupField fields "meta" = some (JValue.obj m)) :
    (lookupField m "source" = none →
        is_sent_from_sources (JValue.obj fields) S = some false)
  ∧ (lookupField m "source" = some JValue.null →
        is_sent_from_sources (JValue.obj fields) S = some false)
  ∧ (∀ s, lookupField m "source" = some (JValue.obj s) →
        (lookupField s "name" = none →
            is_sent_from_sources (JValue.obj fields) S = some false)
      ∧ (lookupField s "name" = some JValue.null →
            is_sent_from_sources (JValue.obj fields) S = some false)
      ∧ (∀ n, lookupField s "name" = some n → n ≠ JValue.null →
            is_sent_from_sources (JValue.obj fields) S
              = some (S.any (fun x => decide (n = JValue.str x))))) := by
  refine ⟨?_, ?_, ?_⟩
  · intro hsrc
    simp [is_sent_from_sources, pyGetItem, pyContains, hmeta,
      any_key_eq_isSome, hsrc]
  · intro hsrc
    simp [is_sent_from_sources, pyGetItem, pyContains, hmeta,
      any_key_eq_isSome, hsrc]
  · intro s hsrc
    refine ⟨?_, ?_, ?_⟩
    · intro hname
      simp [is_sent_from_sources, pyGetItem, pyContains, hmeta,
        any_key_eq_isSome, hsrc, hname]
    · intro hname
      simp [is_sent_from_sources, pyGetItem, pyContains, hmeta,
        any_key_eq_isSome, hsrc, hname]
    · intro n hname hn
      cases n with
      | null => exact absurd rfl hn
      | bool b =>
          simp [is_sent_from_sources, pyGetItem, pyContains, hmeta,
            any_key_eq_isSome, hsrc, hname]
      | str s2 =>
          simp [is_sent_from_sources, pyGetItem, pyContains, hmeta,
            any_key_eq_isSome, hsrc, hname]
      | num n2 =>
          simp [is_sent_from_sources, pyGetItem, pyContains, hmeta,
            any_key_eq_isSome, hsrc, hname]
      | arr elems =>
          simp [is_sent_from_sources, pyGetItem, pyContains, hmeta,
            any_key_eq_isSome, hsrc, hname]
      | obj fs =>
          simp [is_sent_from_sources, pyGetItem, pyContains, hmeta,
            any_key_eq_isSome, hsrc, hname]

/-- Claim C1: for every provider, linkedEventId and list of locations,
create_artifact_published_event returns an Event whose meta.type is
EiffelArtifactPublishedEvent, whose meta.version is 3.0.0, whose links
field is exactly one ARTIFACT link targeting linkedEventId, whose
data.locations is the given locations in order, and whose meta.source has
name EIFFELACTORY with domainId, host, serializer and uri all null. -/
theorem C1_create_artifact_published_event_shape
    (p : IdTimeProvider) (linkedEventId : String) (locations : List JValue) :
    ((pyGetItem (create_artifact_published_event p linkedEventId locations)
        "meta").bind (fun mv => pyGetItem mv "type")
      = some (JValue.str "EiffelArtifactPublishedEvent"))
  ∧ ((pyGetItem (create_artifact_published_event p linkedEventId locations)
        "meta").bind (fun mv => pyGetItem mv "version")
      = some (JValue.str "3.0.0"))
  ∧ (pyGetItem (create_artifact_published_event p linkedEventId locations)
        "links"
      = some (JValue.arr [JValue.obj [("type", JValue.str "ARTIFACT"),
          ("target", JValue.str linkedEventId)]]))
  ∧ ((pyGetItem (create_artifact_published_event p linkedEventId locations)
        "data").bind (fun dv => pyGetItem dv "locations")
      = some (JValue.arr locations))
  ∧ ((pyGetItem (create_artifact_published_event p linkedEventId locations)
        "meta").bind (fun mv => pyGetItem mv "source")
      = some (JValue.obj [("domainId", JValue.null), ("host", JValue.null),
          ("name", JValue.str "EIFFELACTORY"), ("serializer", JValue.null),
          ("uri", JValue.null)])) :=
  ⟨rfl, rfl, rfl, rfl, rfl⟩

/-- Claim C2 counterexample: on a document with no meta key at all,
is_sent_from_sources raises a KeyError (modelled by none) instead of
returning false, so the claim does not hold for every event document. -/
theorem C2_counterexample_missing_meta_raises :
    is_sent_from_sources (JValue.obj []) ["a"] = none
  ∧ is_sent_from_sources (JValue.obj []) ["a"] ≠ some false :=
  ⟨rfl, by decide⟩

/-- Claim C2 (amended): for every event document whose meta field is
present and is a dict, is_sent_from_sources returns false when meta.source
is absent or null; when meta.source is a dict, it returns false when the
name field is absent or null, and otherwise returns exactly the membership
test of the name against the source names. -/
theorem C2_is_sent_from_sources_behaviour
    (fields m : List (String × JValue)) (S : List String)
    (hmeta : lookupField fields "meta" = some (JValue.obj m)) :
    (lookupField m "source" = none →
        is_sent_from_sources (JValue.obj fields) S = some false)
  ∧ (lookupField m "source" = some JValue.null →
        is_sent_from_sources (JValue.obj fields) S = some false)
  ∧ (∀ s, lookupField m "source" = some (JValue.obj s) →
        (lookupField s "name" = none →
            is_sent_from_sources (JValue.obj fields) S = some false)
      ∧ (lookupField s "name" = some JValue.null →
            is_sent_from_sources (JValue.obj fields) S = some false)
      ∧ (∀ n, lookupField s "name" = some n → n ≠ JValue.null →
            is_sent_from_sources (JValue.obj fields) S
              = some (S.any (fun x => decide (n = JValue.str x))))) :=
  is_sent_from_sources_cases fields m S hmeta

/-- Claim C2 witness: concrete instances of the amended claim, covering the
absent-source, null-name, member and non-member cases. -/
theorem C2_is_sent_from_sources_behaviour_witness :
    is_sent_from_sources (JValue.obj [("meta", JValue.obj [])]) ["a"]
      = some false
  ∧ is_sent_from_sources
      (JValue.obj [("meta", JValue.obj [("source",
        JValue.obj [("name", JValue.null)])])]) ["a"] = some false
  ∧ is_sent_from_sources
      (JValue.obj [("meta", JValue.obj [("source",
        JValue.obj [("name", JValue.str "a")])])]) ["a", "b"] = some true
  ∧ is_sent_from_sources
      (JValue.obj [("meta", JValue.obj [("source",
        JValue.obj [("name", JValue.str "c")])])]) ["a", "b"] = some false :=
  ⟨(C2_is_sent_from_sources_behaviour [("meta", JValue.obj [])] [] ["a"]
      rfl).1 rfl,
   ((C2_is_sent_from_sources_behaviour
      [("meta", JValue.obj [("source", JValue.obj [("name", JValue.null)])])]
      [("source", JValue.obj [("name", JValue.null)])] ["a"] rfl).2.2
      [("name", JValue.null)] rfl).2.1 rfl,
   by
    have h := ((C2_is_sent_from_sources_behaviour
      [("meta", JValue.obj [("source", JValue.obj [("name", JValue.str "a")])])]
      [("source", JValue.obj [("name", JValue.str "a")])] ["a", "b"] rfl).2.2
      [("name", JValue.str "a")] rfl).2.2 (JValue.str "a") rfl (by decide)
    simpa using h,
   by
    have h := ((C2_is_sent_from_sources_behaviour
      [("meta", JValue.obj [("source", JValue.obj [("name", JValue.str "c")])])]
      [("source", JValue.obj [("name", JValue.str "c")])] ["a", "b"] rfl).2.2
      [("name", JValue.str "c")] rfl).2.2 (JValue.str "c") rfl (by decide)
    simpa using h⟩

/-- Claim C3 counterexample: on a document lacking the meta key,
is_eiffel_event_type raises a KeyError (modelled by none) instead of
returning a false classification, so the classifiers are not total on
every input document. -/
theorem C3_counterexample_missing_meta_raises :
    is_eiffel_event_type (JValue.obj []) "X" = none
  ∧ is_eiffel_event_type (JValue.obj []) "X" ≠ some false :=
  ⟨rfl, by decide⟩

/-- Claim C3 (amended): is_eiffel_event_type and is_artifact_created_event
never raise on documents whose meta field is a dict carrying a type key;
is_sent_from_sources never raises on documents whose meta field is a dict
whose source field is absent, null, or a dict, and there a missing or null
source or name yields the classification false rather than an error. -/
theorem C3_classifiers_total_on_guarded_documents
    (fields m : List (String × JValue))
    (hmeta : lookupField fields "meta" = some (JValue.obj m)) :
    (∀ tv, lookupField m "type" = some tv →
        (∀ T, (is_eiffel_event_type (JValue.obj fields) T).isSome)
      ∧ (is_artifact_created_event (JValue.obj fields)).isSome)
  ∧ ((lookupField m "source" = none ∨ lookupField m "source" = some JValue.null
        ∨ ∃ s, lookupField m "source" = some (JValue.obj s)) →
      ∀ S, (is_sent_from_sources (JValue.obj fields) S).isSome) := by
  constructor
  · intro tv htype
    constructor
    · intro T
      simp [is_eiffel_event_type, pyGetItem, hmeta, htype]
    · simp [is_artifact_created_event, is_eiffel_event_type, pyGetItem,
        hmeta, htype]
  · intro hsrc S
    rcases hsrc with h1 | h1 | ⟨s, h1⟩
    · rw [(is_sent_from_sources_cases fields m S hmeta).1 h1]
      rfl
    · rw [(is_sent_from_sources_cases fields m S hmeta).2.1 h1]
      rfl
    · have hs := (is_sent_from_sources_cases fields m S hmeta).2.2 s h1
      cases hname : lookupField s "name" with
      | none =>
          rw [hs.1 hname]
          rfl
      | some n =>
          cases n with
          | null =>
              rw [hs.2.1 hname]
              rfl
          | bool b => rw [hs.2.2 _ hname (by simp)]; rfl
          | str s2 => rw [hs.2.2 _ hname (by simp)]; rfl
          | num n2 => rw [hs.2.2 _ hname (by simp)]; rfl
          | arr elems => rw [hs.2.2 _ hname (by simp)]; rfl
          | obj fs => rw [hs.2.2 _ hname (by simp)]; rfl

/-- Claim C3 witness: concrete documents on which the guarded classifiers
are total. -/
theorem C3_classifiers_total_on_guarded_documents_witness :
    (is_eiffel_event_type
      (JValue.obj [("meta", JValue.obj [("type", JValue.str "X")])])
      "Y").isSome
  ∧ (is_artifact_created_event
      (JValue.obj [("meta", JValue.obj [("type", JValue.str "X")])])).isSome
  ∧ (is_sent_from_sources
      (JValue.obj [("meta", JValue.obj [("type", JValue.str "X")])])
      ["a"]).isSome :=
  ⟨((C3_classifiers_total_on_guarded_documents
      [("meta", JValue.obj [("type", JValue.str "X")])]
      [("type", JValue.str "X")] rfl).1 (JValue.str "X") rfl).1 "Y",
   ((C3_classifiers_total_on_guarded_documents
      [("meta", JValue.obj [("type", JValue.str "X")])]
      [("type", JValue.str "X")] rfl).1 (JValue.str "X") rfl).2,
   (C3_classifiers_total_on_guarded_documents
      [("meta", JValue.obj [("type", JValue.str "X")])]
      [("type", JValue.str "X")] rfl).2 (Or.inl rfl) ["a"]⟩

/-- Claim C4: on a document where meta.type is present (reached through
dict access), is_eiffel_event_type returns true exactly when meta.type is
the string T, under exact case-sensitive equality, and false for every
other T. -/
theorem C4_is_eiffel_event_type_iff
    (e mv tv : JValue) (T : String)
    (hmeta : pyGetItem e "meta" = some mv)
    (htype : pyGetItem mv "type" = some tv) :
    (is_eiffel_event_type e T = some true ↔ tv = JValue.str T)
  ∧ (is_eiffel_event_type e T = some false ↔ tv ≠ JValue.str T) := by
  constructor
  · simp [is_eiffel_event_type, hmeta, htype]
  · simp [is_eiffel_event_type, hmeta, htype]

/-- Claim C4 witness: matching and differing type strings on a concrete
document, including a case-sensitivity check. -/
theorem C4_is_eiffel_event_type_iff_witness :
    is_eiffel_event_type
      (JValue.obj [("meta", JValue.obj [("type", JValue.str "Ab")])]) "Ab"
      = some true
  ∧ is_eiffel_event_type
      (JValue.obj [("meta", JValue.obj [("type", JValue.str "Ab")])]) "ab"
      = some false :=
  ⟨(C4_is_eiffel_event_type_iff
      (JValue.obj [("meta", JValue.obj [("type", JValue.str "Ab")])])
      (JValue.obj [("type", JValue.str "Ab")]) (JValue.str "Ab") "Ab"
      rfl rfl).1.mpr rfl,
   (C4_is_eiffel_event_type_iff
      (JValue.obj [("meta", JValue.obj [("type", JValue.str "Ab")])])
      (JValue.obj [("type", JValue.str "Ab")]) (JValue.str "Ab") "ab"
      rfl rfl).2.mpr (by decide)⟩

/-- Claim C5: is_artifact_created_event agrees with is_eiffel_event_type
at the string EiffelArtifactCreatedEvent on every document, including the
raising ones (extensional equality of the two classifiers). -/
theorem C5_is_artifact_created_event_eq (e : JValue) :
    is_artifact_created_event e
      = is_eiffel_event_type e "EiffelArtifactCreatedEvent" := rfl

/-- Claim C6: in any Meta construction, an explicit (non-None) event_id
appears verbatim as the id field and an explicit time appears verbatim as
the time field, while a None event_id is replaced by the provider uuid and
a None time by the provider current time in milliseconds. -/
theorem C6_meta_id_time_defaulting
    (p : IdTimeProvider) (et v : String) (eid tm tags src : JValue) :
    (eid ≠ JValue.null →
        pyGetItem (Meta p et v eid tm tags src) "id" = some eid)
  ∧ (eid = JValue.null →
        pyGetItem (Meta p et v eid tm tags src) "id"
          = some (JValue.str p.uuid4))
  ∧ (tm ≠ JValue.null →
        pyGetItem (Meta p et v eid tm tags src) "time" = some tm)
  ∧ (tm = JValue.null →
        pyGetItem (Meta p et v eid tm tags src) "time"
          = some (JValue.num p.current_time_millis)) := by
  refine ⟨?_, ?_, ?_, ?_⟩
  · intro h
    cases eid <;> first | exact absurd rfl h | rfl
  · intro h
    subst h
    rfl
  · intro h
    cases tm <;> cases eid <;> first | exact absurd rfl h | rfl
  · intro h
    subst h
    cases eid <;> rfl

/-- Claim C6 witness: explicit and defaulted id and time on a concrete
provider. -/
theorem C6_meta_id_time_defaulting_witness :
    pyGetItem (Meta providerA "t" "v" (JValue.str "I") (JValue.num 5)
        JValue.null JValue.null) "id" = some (JValue.str "I")
  ∧ pyGetItem (Meta providerA "t" "v" JValue.null JValue.null
        JValue.null JValue.null) "id" = some (JValue.str providerA.uuid4)
  ∧ pyGetItem (Meta providerA "t" "v" (JValue.str "I") (JValue.num 5)
        JValue.null JValue.null) "time" = some (JValue.num 5)
  ∧ pyGetItem (Meta providerA "t" "v" JValue.null JValue.null
        JValue.null JValue.null) "time"
      = some (JValue.num providerA.current_time_millis) :=
  ⟨(C6_meta_id_time_defaulting providerA "t" "v" (JValue.str "I")
      (JValue.num 5) JValue.null JValue.null).1 (by decide),
   (C6_meta_id_time_defaulting providerA "t" "v" JValue.null JValue.null
      JValue.null JValue.null).2.1 rfl,
   (C6_meta_id_time_defaulting providerA "t" "v" (JValue.str "I")
      (JValue.num 5) JValue.null JValue.null).2.2.1 (by decide),
   (C6_meta_id_time_defaulting providerA "t" "v" JValue.null JValue.null
      JValue.null JValue.null).2.2.2 rfl⟩

/-- Claim C7: every document built by the constructors carries exactly the
fixed keys of its record type, in construction order, and the optional
fields the factory leaves without a value (meta.tags and the four unnamed
Source fields) are present with value null rather than omitted or empty. -/
theorem C7_fixed_keys_and_null_optionals
    (p : IdTimeProvider) (d l m eid tm tg sv dm ho nm sr u lt tgt locs luri
      ltp : JValue) (et v lid : String) (locsL : List JValue) :
    keysOf (Event d l m) = ["data", "links", "meta"]
  ∧ keysOf (Meta p et v eid tm tg sv)
      = ["id", "type", "version", "time", "tags", "source"]
  ∧ keysOf (Source dm ho nm sr u)
      = ["domainId", "host", "name", "serializer", "uri"]
  ∧ keysOf (Link lt tgt) = ["type", "target"]
  ∧ keysOf (ArtifactPublishedData locs) = ["locations"]
  ∧ keysOf (Location luri ltp) = ["type", "uri"]
  ∧ (pyGetItem (create_artifact_published_event p lid locsL) "meta").bind
      (fun mv => pyGetItem mv "tags") = some JValue.null
  ∧ (((pyGetItem (create_artifact_published_event p lid locsL) "meta").bind
      (fun mv => pyGetItem mv "source")).bind
      (fun s => pyGetItem s "domainId") = some JValue.null)
  ∧ (((pyGetItem (create_artifact_published_event p lid locsL) "meta").bind
      (fun mv => pyGetItem mv "source")).bind
      (fun s => pyGetItem s "host") = some JValue.null)
  ∧ (((pyGetItem (create_artifact_published_event p lid locsL) "meta").bind
      (fun mv => pyGetItem mv "source")).bind
      (fun s => pyGetItem s "serializer") = some JValue.null)
  ∧ (((pyGetItem (create_artifact_published_event p lid locsL) "meta").bind
      (fun mv => pyGetItem mv "source")).bind
      (fun s => pyGetItem s "uri") = some JValue.null) :=
  ⟨rfl, rfl, rfl, rfl, rfl, rfl, rfl, rfl, rfl, rfl, rfl⟩

/-- Claim C8: two calls to the factory on providers that return distinct
uuids produce events with distinct meta.id values, for any linked event
ids and location lists. -/
theorem C8_successive_events_distinct_ids
    (p1 p2 : IdTimeProvider) (id1 id2 : String)
    (locs1 locs2 : List JValue) (hp : p1.uuid4 ≠ p2.uuid4) :
    (pyGetItem (create_artifact_published_event p1 id1 locs1) "meta").bind
        (fun mv => pyGetItem mv "id")
      ≠ (pyGetItem (create_artifact_published_event p2 id2 locs2)
          "meta").bind (fun mv => pyGetItem mv "id") := by
  intro hcontra
  have h2 : (some (JValue.str p1.uuid4) : Option JValue)
      = some (JValue.str p2.uuid4) := hcontra
  exact hp (JValue.str.inj (Option.some.inj h2))

/-- Claim C8 witness: two concrete providers with distinct uuids give
events with distinct meta.id values. -/
theorem C8_successive_events_distinct_ids_witness :
    (pyGetItem (create_artifact_published_event providerA "x" [])
        "meta").bind (fun mv => pyGetItem mv "id")
      ≠ (pyGetItem (create_artifact_published_event providerB "y" [])
          "meta").bind (fun mv => pyGetItem mv "id") :=
  C8_successive_events_distinct_ids providerA providerB "x" "y" [] []
    (by decide)

/-- Claim C9: the factory always leaves meta.tags present with value null,
for every provider, linked event id and location list. -/
theorem C9_factory_meta_tags_null
    (p : IdTimeProvider) (linkedEventId : String) (locations : List JValue) :
    (pyGetItem (create_artifact_published_event p linkedEventId locations)
        "meta").bind (fun mv => pyGetItem mv "tags") = some JValue.null :=
  rfl

/-- Claim C10: with an explicit (non-None) event_id and time, Meta
construction is deterministic and independent of the provider: two
constructions with equal arguments but arbitrary providers yield equal
documents. -/
theorem C10_meta_deterministic_on_explicit_id_time
    (p1 p2 : IdTimeProvider) (et v : String) (eid tm tags src : JValue)
    (hid : eid ≠ JValue.null) (htm : tm ≠ JValue.null) :
    Meta p1 et v eid tm tags src = Meta p2 et v eid tm tags src := by
  cases eid <;> cases tm <;> first
    | exact absurd rfl hid
    | exact absurd rfl htm
    | rfl

/-- Claim C10 witness: two distinct concrete providers yield the same Meta
document once id and time are explicit. -/
theorem C10_meta_deterministic_on_explicit_id_time_witness :
    Meta providerA "t" "v" (JValue.str "I") (JValue.num 5) JValue.null
        JValue.null
      = Meta providerB "t" "v" (JValue.str "I") (JValue.num 5) JValue.null
        JValue.null :=
  C10_meta_deterministic_on_explicit_id_time providerA providerB "t" "v"
    (JValue.str "I") (JValue.num 5) JValue.null JValue.null
    (by decide) (by decide)

end Eiffelactory
